import Mathlib

/-!
Verification of the coordinate-transform and zone-geometry subsystem of
mplbasketball: court parameter tables with unit conversion
(court_params.py), the `CourtSpec` data model and its derived geometry,
orientation/origin transforms (utils.py), zone polygon builders and zone
membership masks (zones.py).

Machine floats of the source are modelled as exact rationals; the
trigonometric polygon builders are modelled over the reals.  Arrays are
modelled as lists; the in-place numpy updates of `transform` are modelled
by returning, next to the function's return value, the final contents of
the caller's two input buffers.
-/

namespace MplBasketball

/-- A court-parameter value: a scalar measurement or a list of measurements
(mirrors the Python dict values, which are floats or lists of floats). -/
inductive PVal where
  | scalar : ℚ → PVal
  | vals : List ℚ → PVal
deriving DecidableEq

/-- A court-parameter table: the Python parameter dict as an association list. -/
abbrev Params := List (String × PVal)

def pvalScalar : PVal → ℚ
  | .scalar q => q
  | .vals l => l.headD 0

def pvalList : PVal → List ℚ
  | .scalar q => [q]
  | .vals l => l

def paramGet (p : Params) (k : String) : PVal :=
  match p.find? (fun kv => kv.1 == k) with
  | some kv => kv.2
  | none => .scalar 0

def paramScalar (p : Params) (k : String) : ℚ := pvalScalar (paramGet p k)

def paramPair (p : Params) (k : String) : ℚ × ℚ :=
  let l := pvalList (paramGet p k)
  (l.headD 0, (l.drop 1).headD 0)

/-- `nba_court_parameters` from court_params.py. -/
def nba_court_parameters : Params := [
  ("court_dims", .vals [94, 50]),
  ("hoop_distance_from_edge", .scalar 5.25),
  ("hoop_radius", .scalar 0.75),
  ("backboard_distance_from_edge", .scalar 4),
  ("backboard_width", .scalar 6),
  ("backboard_height", .scalar 3.5),
  ("backboard_inner_rect_width", .scalar 2),
  ("backboard_inner_rect_height", .scalar 1.5),
  ("backboard_inner_rect_from_bottom", .scalar 1),
  ("charge_circle_radius", .scalar 4),
  ("charge_circle_side_length", .scalar 3),
  ("inbound_line_distance_from_edge", .scalar 28),
  ("inbound_line_length", .scalar 3),
  ("outbound_line_distance_from_center", .scalar (4 + 1/12)),
  ("outbound_line_length", .scalar 4),
  ("outer_paint_dims", .vals [18 + 5/6, 16 - 1/3]),
  ("inner_paint_dims", .vals [18 + 5/6, 12 - 1/3]),
  ("outer_circle_radius", .scalar 6),
  ("inner_circle_radius", .scalar 2),
  ("three_point_arc_angle", .scalar 68.13),
  ("three_point_arc_diameter", .scalar 47.5),
  ("three_point_line_length", .scalar 14),
  ("three_point_side_width", .scalar 3),
  ("hoop_height", .scalar 10)]

/-- `wnba_court_parameters` from court_params.py. -/
def wnba_court_parameters : Params := [
  ("court_dims", .vals [94, 50]),
  ("hoop_distance_from_edge", .scalar 5.25),
  ("hoop_radius", .scalar 0.75),
  ("backboard_distance_from_edge", .scalar 4),
  ("backboard_width", .scalar 6),
  ("backboard_height", .scalar 3.5),
  ("backboard_inner_rect_width", .scalar 2),
  ("backboard_inner_rect_height", .scalar 1.5),
  ("backboard_inner_rect_from_bottom", .scalar 1),
  ("charge_circle_radius", .scalar 4),
  ("charge_circle_side_length", .scalar 3),
  ("inbound_line_distance_from_edge", .scalar 28),
  ("inbound_line_length", .scalar 3),
  ("outbound_line_distance_from_center", .scalar (4 + 1/12)),
  ("outbound_line_length", .scalar 4),
  ("outer_paint_dims", .vals [18 + 5/6, 16 - 1/3]),
  ("inner_paint_dims", .vals [18 + 5/6, 12 - 1/3]),
  ("outer_circle_radius", .scalar 6),
  ("inner_circle_radius", .scalar 2),
  ("three_point_arc_angle", .scalar (8351692630710276 / 100000000000000)),
  ("three_point_arc_diameter", .scalar 44.365),
  ("three_point_line_length", .scalar 7.75),
  ("three_point_side_width", .scalar 3),
  ("hoop_height", .scalar 10)]

/-- `ncaa_court_parameters` from court_params.py. -/
def ncaa_court_parameters : Params := [
  ("court_dims", .vals [94, 50]),
  ("hoop_distance_from_edge", .scalar 5.25),
  ("hoop_radius", .scalar 0.75),
  ("backboard_distance_from_edge", .scalar 4),
  ("backboard_width", .scalar 6),
  ("backboard_height", .scalar 3.5),
  ("backboard_inner_rect_width", .scalar 2),
  ("backboard_inner_rect_height", .scalar 1.5),
  ("backboard_inner_rect_from_bottom", .scalar 1),
  ("charge_circle_radius", .scalar 4),
  ("charge_circle_side_length", .scalar 3),
  ("inbound_line_distance_from_edge", .scalar 28),
  ("inbound_line_length", .scalar 3),
  ("outbound_line_distance_from_center", .scalar (4 + 1/12)),
  ("outbound_line_length", .scalar 4),
  ("outer_paint_dims", .vals [18 + 5/6, 12 - 1/3]),
  ("inner_paint_dims", .vals [18 + 5/6, 12 - 1/3]),
  ("outer_circle_radius", .scalar 6),
  ("inner_circle_radius", .scalar 6),
  ("three_point_arc_angle", .scalar 78.95),
  ("three_point_arc_diameter", .scalar 44.218),
  ("three_point_line_length", .scalar 9.4),
  ("three_point_side_width", .scalar 3.34375),
  ("hoop_height", .scalar 10)]

/-- `fiba_court_parameters` from court_params.py. -/
def fiba_court_parameters : Params := [
  ("court_dims", .vals [91.8635, 49.2126]),
  ("hoop_distance_from_edge", .scalar 5.167),
  ("hoop_radius", .scalar 0.75),
  ("backboard_distance_from_edge", .scalar 3.937),
  ("backboard_width", .scalar 6),
  ("backboard_height", .scalar 3.5),
  ("backboard_inner_rect_width", .scalar 2),
  ("backboard_inner_rect_height", .scalar 1.5),
  ("backboard_inner_rect_from_bottom", .scalar 1),
  ("charge_circle_radius", .scalar 3.94),
  ("charge_circle_side_length", .scalar 3),
  ("inbound_line_distance_from_edge", .scalar 27.32),
  ("inbound_line_length", .scalar 3),
  ("outbound_line_distance_from_center", .scalar (3.9685 + 1/12)),
  ("outbound_line_length", .scalar 4),
  ("outer_paint_dims", .vals [18.0289 + 5/6, 16.08 - 1/3]),
  ("inner_paint_dims", .vals [18.0289 + 5/6, 12 - 1/3]),
  ("outer_circle_radius", .scalar 5.90551),
  ("inner_circle_radius", .scalar 5.90551),
  ("three_point_arc_angle", .scalar 78.9),
  ("three_point_arc_diameter", .scalar 44.218),
  ("three_point_line_length", .scalar 9.4),
  ("three_point_side_width", .scalar 2.953),
  ("hoop_height", .scalar 10)]

/-- Split a character list at every occurrence of `sep` (model of Python
`str.split` with a one-character separator, written by structural recursion
so that the kernel can evaluate it). -/
def splitOnChar (sep : Char) : List Char → List (List Char)
  | [] => [[]]
  | c :: cs =>
    match splitOnChar sep cs with
    | [] => [[]]
    | g :: gs => if c == sep then [] :: g :: gs else (c :: g) :: gs

/-- Python `key.split("_")`: the underscore-separated components of a
parameter name. -/
def nameComponents (s : String) : List String :=
  (splitOnChar '_' s.toList).map String.mk

def leagueTokens : List String := ["nba", "wnba", "ncaa", "fiba"]

def unitTokens : List String := ["m", "ft"]

/-- `_get_court_params_in_desired_units` from court_params.py: validates the
league and unit tokens (Python asserts), then scales every non-angle field
by the conversion factor (1 for feet, 0.3048 for meters), lists
element-wise; fields with `angle` as an underscore-separated name
component are passed through. -/
def _get_court_params_in_desired_units (court_type desired_units : String) :
    Except String Params :=
  if court_type ∉ leagueTokens then .error "Invalid court type"
  else if desired_units ∉ unitTokens then .error "Invalid units"
  else
    let conversion_factor : ℚ := if desired_units == "m" then 0.3048 else 1
    let court_params :=
      if court_type == "nba" then nba_court_parameters
      else if court_type == "wnba" then wnba_court_parameters
      else if court_type == "ncaa" then ncaa_court_parameters
      else fiba_court_parameters
    .ok (court_params.map (fun kv =>
      if (nameComponents kv.1).contains "angle" then kv
      else match kv.2 with
        | .scalar v => (kv.1, PVal.scalar (v * conversion_factor))
        | .vals l => (kv.1, PVal.vals (l.map (fun v => v * conversion_factor)))))

/-- `CourtSpec` from zones.py: a frozen dataclass of four string fields with
defaults; the generated constructor performs no validation. -/
structure CourtSpec where
  court_type : String := "nba"
  units : String := "ft"
  origin : String := "top-left"
  orientation : String := "h"
deriving DecidableEq

def originTokens : List String :=
  ["center", "top-left", "bottom-left", "top-right", "bottom-right"]

/-- `_center_from_origin` from zones.py (raises ValueError on an unknown
origin token). -/
def _center_from_origin (origin : String) (dims : ℚ × ℚ) :
    Except String (ℚ × ℚ) :=
  if origin == "center" then .ok (0, 0)
  else if origin == "top-left" then .ok (dims.1 / 2, -dims.2 / 2)
  else if origin == "bottom-left" then .ok (dims.1 / 2, dims.2 / 2)
  else if origin == "top-right" then .ok (-dims.1 / 2, -dims.2 / 2)
  else if origin == "bottom-right" then .ok (-dims.1 / 2, dims.2 / 2)
  else .error ("Invalid origin: " ++ origin)

def CourtSpec.params (s : CourtSpec) : Except String Params :=
  _get_court_params_in_desired_units s.court_type s.units

def CourtSpec.dims (s : CourtSpec) : Except String (ℚ × ℚ) := do
  let p ← s.params
  pure (paramPair p "court_dims")

/-- `CourtSpec.center`: origin-convention point in the working frame,
rotated by the map taking x y into (-y, x) when the orientation is not
horizontal. -/
def CourtSpec.center (s : CourtSpec) : Except String (ℚ × ℚ) := do
  let d ← s.dims
  let c ← _center_from_origin s.origin d
  pure (if s.orientation == "h" then c else (-c.2, c.1))

/-- `CourtSpec.hoop_centers`: both hoops in the horizontal frame, rotated into
the vertical frame when requested. -/
def CourtSpec.hoop_centers (s : CourtSpec) :
    Except String ((ℚ × ℚ) × (ℚ × ℚ)) := do
  let p ← s.params
  let d := paramPair p "court_dims"
  let c ← _center_from_origin s.origin d
  let left_x := c.1 - d.1 / 2 + paramScalar p "hoop_distance_from_edge"
  let right_x := c.1 + d.1 / 2 - paramScalar p "hoop_distance_from_edge"
  pure (if s.orientation == "v" then ((-c.2, left_x), (-c.2, right_x))
        else ((left_x, c.2), (right_x, c.2)))

/-! ## Orientation/origin transform (utils.py) -/

def frTokens : List String := ["h", "hl", "hr", "v", "vu", "vd"]

/-- The first character of an orientation token (Python fr[0]). -/
def frontChar (s : String) : Char := s.toList.headD ' '

/-- The `origins` dict literal inside `transform` (same table as
`_center_from_origin`, duplicated in the source; total after validation). -/
def originsTable (origin : String) (dims : ℚ × ℚ) : ℚ × ℚ :=
  if origin == "center" then (0, 0)
  else if origin == "top-left" then (dims.1 / 2, -dims.2 / 2)
  else if origin == "bottom-left" then (dims.1 / 2, dims.2 / 2)
  else if origin == "top-right" then (-dims.1 / 2, -dims.2 / 2)
  else (-dims.1 / 2, dims.2 / 2)

/-- Result of one call of `transform`: the returned pair of arrays together
with the final contents of the caller's two input buffers (the source
assigns into the caller's arrays through boolean masks in the same-family
branches, so the buffers may change). -/
structure TransformResult where
  retx : List ℚ
  rety : List ℚ
  bufx : List ℚ
  bufy : List ℚ
deriving DecidableEq

/-- The body of `transform` after validation, translated branch by branch
from utils.py.  `c` is `center_court`.  Per-point masked numpy assignments
become per-point conditionals; in the v-into-h fold the y-mask is evaluated
on the already-updated x array, exactly as in the source. -/
def transformCore (x y : List ℚ) (fr toTok : String) (c : ℚ × ℚ) :
    TransformResult :=
  if fr == toTok then ⟨x, y, x, y⟩
  else
    let pts := x.zip y
    if frontChar fr == 'h' && frontChar toTok == 'h' then
      if (fr == "h" || fr == "hl") && toTok == "hr" then
        let q := pts.map (fun p =>
          if p.1 < c.1 then (2 * c.1 - p.1, 2 * c.2 - p.2) else p)
        ⟨q.map Prod.fst, q.map Prod.snd, q.map Prod.fst, q.map Prod.snd⟩
      else if (fr == "h" || fr == "hr") && toTok == "hl" then
        let q := pts.map (fun p =>
          if p.1 > c.1 then (2 * c.1 - p.1, 2 * c.2 - p.2) else p)
        ⟨q.map Prod.fst, q.map Prod.snd, q.map Prod.fst, q.map Prod.snd⟩
      else ⟨x, y, x, y⟩
    else if frontChar fr == 'v' && frontChar toTok == 'v' then
      if (fr == "v" || fr == "vl") && toTok == "vu" then
        let q := pts.map (fun p =>
          if p.2 < c.1 then (-2 * c.2 - p.1, 2 * c.1 - p.2) else p)
        ⟨q.map Prod.fst, q.map Prod.snd, q.map Prod.fst, q.map Prod.snd⟩
      else if (fr == "v" || fr == "vu") && toTok == "vd" then
        let q := pts.map (fun p =>
          if p.2 > c.1 then (-2 * c.2 - p.1, 2 * c.1 - p.2) else p)
        ⟨q.map Prod.fst, q.map Prod.snd, q.map Prod.fst, q.map Prod.snd⟩
      else ⟨x, y, x, y⟩
    else if frontChar fr == 'h' && frontChar toTok == 'v' then
      let rot := pts.map (fun p => (-p.2, p.1))
      let rot2 :=
        if toTok == "vu" then rot.map (fun p =>
          if p.2 < c.1 then (-2 * c.2 - p.1, 2 * c.1 - p.2) else p)
        else if toTok == "vd" then rot.map (fun p =>
          if p.2 > c.1 then (-2 * c.2 - p.1, 2 * c.1 - p.2) else p)
        else rot
      ⟨rot2.map Prod.fst, rot2.map Prod.snd, x, y⟩
    else if frontChar fr == 'v' && frontChar toTok == 'h' then
      let rot := pts.map (fun p => (p.2, -p.1))
      if toTok == "hr" then
        let x1 := rot.map (fun p => if p.1 < c.1 then 2 * c.1 - p.1 else p.1)
        let y1 := (x1.zip rot).map (fun q =>
          if q.1 < c.1 then 2 * c.2 - q.2.2 else q.2.2)
        ⟨x1, y1, x, y⟩
      else if toTok == "hl" then
        let x1 := rot.map (fun p => if p.1 > c.1 then 2 * c.1 - p.1 else p.1)
        let y1 := (x1.zip rot).map (fun q =>
          if q.1 > c.1 then 2 * c.2 - q.2.2 else q.2.2)
        ⟨x1, y1, x, y⟩
      else ⟨rot.map Prod.fst, rot.map Prod.snd, x, y⟩
    else ⟨x, y, x, y⟩

/-- `transform` from utils.py: validates the four tokens, loads the court
dimensions in feet, then runs the pure branch body. -/
def transform (x y : List ℚ) (fr toTok origin court_type : String) :
    Except String TransformResult :=
  if fr ∉ frTokens then .error ("Invalid value for fr: " ++ fr)
  else if toTok ∉ frTokens then .error ("Invalid value for to: " ++ toTok)
  else if origin ∉ originTokens then .error ("Invalid value for origin: " ++ origin)
  else if court_type ∉ leagueTokens then
    .error ("Invalid value for court_type: " ++ court_type)
  else
    match _get_court_params_in_desired_units court_type "ft" with
    | .error e => .error e
    | .ok p =>
      .ok (transformCore x y fr toTok (originsTable origin (paramPair p "court_dims")))

/-! ## Zone membership masks (zones.py)

Each mask normalizes the input to the horizontal frame via the inverse
rotation `_v2h_points` (x, y become y, -x) when the spec is vertical, then
evaluates the closed-form predicate per point.  The per-point cores carry
the horizontal-frame spec. -/

def restricted_area_mask_core (spec_h : CourtSpec) (xh yh : ℚ)
    (side : String) : Except String Bool := do
  let p ← spec_h.params
  let r := paramScalar p "charge_circle_radius"
  let hc ← spec_h.hoop_centers
  let dl2 := (xh - hc.1.1) ^ 2 + (yh - hc.1.2) ^ 2
  let dr2 := (xh - hc.2.1) ^ 2 + (yh - hc.2.2) ^ 2
  let left_mask := decide (dl2 ≤ r * r ∧ hc.1.1 ≤ xh)
  let right_mask := decide (dr2 ≤ r * r ∧ xh ≤ hc.2.1)
  pure (if side == "l" then left_mask
        else if side == "r" then right_mask
        else left_mask || right_mask)

/-- `restricted_area_mask` at a single point. -/
def restricted_area_mask_pt (x y : ℚ) (spec : CourtSpec) (side : String) :
    Except String Bool :=
  if spec.orientation == "v" then
    restricted_area_mask_core ⟨spec.court_type, spec.units, spec.origin, "h"⟩
      y (-x) side
  else restricted_area_mask_core spec x y side

def paint_mask_core (spec_h : CourtSpec) (xh yh : ℚ) (side : String) :
    Except String Bool := do
  let p ← spec_h.params
  let d := paramPair p "court_dims"
  let c ← _center_from_origin spec_h.origin d
  let w := (paramPair p "outer_paint_dims").1
  let h := (paramPair p "outer_paint_dims").2
  let xl0 := c.1 - d.1 / 2
  let xl1 := xl0 + w
  let yl0 := c.2 - h / 2
  let yl1 := c.2 + h / 2
  let xr1 := c.1 + d.1 / 2
  let xr0 := xr1 - w
  let left := decide (xl0 ≤ xh ∧ xh ≤ xl1 ∧ yl0 ≤ yh ∧ yh ≤ yl1)
  let right := decide (xr0 ≤ xh ∧ xh ≤ xr1 ∧ yl0 ≤ yh ∧ yh ≤ yl1)
  pure (if side == "l" then left
        else if side == "r" then right
        else left || right)

/-- `paint_mask` at a single point. -/
def paint_mask_pt (x y : ℚ) (spec : CourtSpec) (side : String) :
    Except String Bool :=
  if spec.orientation == "v" then
    paint_mask_core ⟨spec.court_type, spec.units, spec.origin, "h"⟩ y (-x) side
  else paint_mask_core spec x y side

def corner_three_mask_core (spec_h : CourtSpec) (xh yh : ℚ) (side : String) :
    Except String Bool := do
  let p ← spec_h.params
  let d := paramPair p "court_dims"
  let c ← _center_from_origin spec_h.origin d
  let line_len := paramScalar p "three_point_line_length"
  let side_w := paramScalar p "three_point_side_width"
  let xl0 := c.1 - d.1 / 2
  let xl1 := xl0 + line_len
  let xr1 := c.1 + d.1 / 2
  let xr0 := xr1 - line_len
  let top_band := decide (c.2 + d.2 / 2 - side_w ≤ yh ∧ yh ≤ c.2 + d.2 / 2)
  let bot_band := decide (c.2 - d.2 / 2 ≤ yh ∧ yh ≤ c.2 - d.2 / 2 + side_w)
  let left := decide (xl0 ≤ xh ∧ xh ≤ xl1) && (top_band || bot_band)
  let right := decide (xr0 ≤ xh ∧ xh ≤ xr1) && (top_band || bot_band)
  pure (if side == "l" then left
        else if side == "r" then right
        else left || right)

/-- `corner_three_mask` at a single point. -/
def corner_three_mask_pt (x y : ℚ) (spec : CourtSpec) (side : String) :
    Except String Bool :=
  if spec.orientation == "v" then
    corner_three_mask_core ⟨spec.court_type, spec.units, spec.origin, "h"⟩
      y (-x) side
  else corner_three_mask_core spec x y side

def above_break_three_mask_core (spec_h : CourtSpec) (xh yh : ℚ)
    (side : String) : Except String Bool := do
  let p ← spec_h.params
  let d := paramPair p "court_dims"
  let c ← _center_from_origin spec_h.origin d
  let hc ← spec_h.hoop_centers
  let arc_r := paramScalar p "three_point_arc_diameter" / 2
  let side_w := paramScalar p "three_point_side_width"
  let central_band := decide (|yh - c.2| ≤ d.2 / 2 - side_w)
  let dl2 := (xh - hc.1.1) ^ 2 + (yh - hc.1.2) ^ 2
  let dr2 := (xh - hc.2.1) ^ 2 + (yh - hc.2.2) ^ 2
  let left := central_band && decide (dl2 ≥ arc_r * arc_r)
  let right := central_band && decide (dr2 ≥ arc_r * arc_r)
  pure (if side == "l" then left
        else if side == "r" then right
        else left || right)

/-- `above_break_three_mask` at a single point. -/
def above_break_three_mask_pt (x y : ℚ) (spec : CourtSpec) (side : String) :
    Except String Bool :=
  if spec.orientation == "v" then
    above_break_three_mask_core ⟨spec.court_type, spec.units, spec.origin, "h"⟩
      y (-x) side
  else above_break_three_mask_core spec x y side

/-- Array-level `restricted_area_mask`: the boolean mask, paired with the
final contents of the caller's two input buffers (the source only reads
the inputs, so they are returned unchanged). -/
def restricted_area_mask (x y : List ℚ) (spec : CourtSpec) (side : String) :
    Except String (List Bool × List ℚ × List ℚ) := do
  let m ← (x.zip y).mapM (fun q => restricted_area_mask_pt q.1 q.2 spec side)
  pure (m, x, y)

/-- Array-level `paint_mask` with final buffer contents. -/
def paint_mask (x y : List ℚ) (spec : CourtSpec) (side : String) :
    Except String (List Bool × List ℚ × List ℚ) := do
  let m ← (x.zip y).mapM (fun q => paint_mask_pt q.1 q.2 spec side)
  pure (m, x, y)

/-- Array-level `corner_three_mask` with final buffer contents. -/
def corner_three_mask (x y : List ℚ) (spec : CourtSpec) (side : String) :
    Except String (List Bool × List ℚ × List ℚ) := do
  let m ← (x.zip y).mapM (fun q => corner_three_mask_pt q.1 q.2 spec side)
  pure (m, x, y)

/-- Array-level `above_break_three_mask` with final buffer contents. -/
def above_break_three_mask (x y : List ℚ) (spec : CourtSpec) (side : String) :
    Except String (List Bool × List ℚ × List ℚ) := do
  let m ← (x.zip y).mapM (fun q => above_break_three_mask_pt q.1 q.2 spec side)
  pure (m, x, y)

/-! ## Zone geometry builders (zones.py) -/

/-- `_h2v_points` applied to one vertex: the fixed rotation taking (x, y)
into (-y, x). -/
def rot_point (q : ℚ × ℚ) : ℚ × ℚ := (-q.2, q.1)

def rot_point_r (q : ℝ × ℝ) : ℝ × ℝ := (-q.2, q.1)

/-- The horizontal branch of `paint_polygon`. -/
def paint_polygon_h (spec : CourtSpec) (side : String) :
    Except String (List (ℚ × ℚ)) := do
  let p ← spec.params
  let d := paramPair p "court_dims"
  let c ← spec.center
  let w := (paramPair p "outer_paint_dims").1
  let h := (paramPair p "outer_paint_dims").2
  let x0 := if side == "l" then c.1 - d.1 / 2 else c.1 + d.1 / 2 - w
  let y0 := c.2 - h / 2
  pure [(x0, y0), (x0 + w, y0), (x0 + w, y0 + h), (x0, y0 + h), (x0, y0)]

/-- `paint_polygon`: horizontal branch directly; vertical branch builds in
the horizontal frame and rotates every vertex. -/
def paint_polygon (spec : CourtSpec) (side : String) :
    Except String (List (ℚ × ℚ)) :=
  if spec.orientation == "h" then paint_polygon_h spec side
  else
    (paint_polygon_h ⟨spec.court_type, spec.units, spec.origin, "h"⟩ side).map
      (List.map rot_point)

/-- The horizontal branch of `corner_three_rects` (top rectangle then
bottom rectangle, both closed). -/
def corner_three_rects_h (spec : CourtSpec) (side : String) :
    Except String (List (List (ℚ × ℚ))) := do
  let p ← spec.params
  let d := paramPair p "court_dims"
  let c ← spec.center
  let line_len := paramScalar p "three_point_line_length"
  let side_w := paramScalar p "three_point_side_width"
  let x0 := if side == "l" then c.1 - d.1 / 2 else c.1 + d.1 / 2 - line_len
  let x1 := if side == "l" then c.1 - d.1 / 2 + line_len else c.1 + d.1 / 2
  let yt0 := c.2 + d.2 / 2 - side_w
  let yt1 := c.2 + d.2 / 2
  let yb0 := c.2 - d.2 / 2
  let yb1 := c.2 - d.2 / 2 + side_w
  pure [[(x0, yt0), (x1, yt0), (x1, yt1), (x0, yt1), (x0, yt0)],
        [(x0, yb0), (x1, yb0), (x1, yb1), (x0, yb1), (x0, yb0)]]

/-- `corner_three_rects`: vertical branch rotates the horizontal build. -/
def corner_three_rects (spec : CourtSpec) (side : String) :
    Except String (List (List (ℚ × ℚ))) :=
  if spec.orientation == "h" then corner_three_rects_h spec side
  else
    (corner_three_rects_h ⟨spec.court_type, spec.units, spec.origin, "h"⟩
      side).map (List.map (List.map rot_point))

/-- `np.linspace(a, b, n)` with endpoint inclusion. -/
noncomputable def linspace (a b : ℝ) (n : ℕ) : List ℝ :=
  (List.range n).map (fun i => a + (b - a) * i / ((n : ℝ) - 1))

/-- `np.deg2rad`. -/
noncomputable def deg2rad (d : ℝ) : ℝ := d * (Real.pi / 180)

/-- The horizontal branch of `three_point_arc_points`: a polyline sampled
along the arc around the side's hoop. -/
noncomputable def three_point_arc_points_h (spec : CourtSpec) (side : String)
    (n : ℕ) : Except String (List (ℝ × ℝ)) := do
  let p ← spec.params
  let hc ← spec.hoop_centers
  let c := if side == "l" then hc.1 else hc.2
  let arc_angle := paramScalar p "three_point_arc_angle"
  let radius := paramScalar p "three_point_arc_diameter" / 2
  let offset : ℚ := if side == "l" then 0 else 180
  let thetas := (linspace ((-arc_angle + offset : ℚ) : ℝ)
    ((arc_angle + offset : ℚ) : ℝ) n).map deg2rad
  pure (thetas.map (fun t =>
    ((c.1 : ℝ) + (radius : ℝ) * Real.cos t,
     (c.2 : ℝ) + (radius : ℝ) * Real.sin t)))

/-- `three_point_arc_points`: vertical branch rotates the horizontal
polyline. -/
noncomputable def three_point_arc_points (spec : CourtSpec) (side : String)
    (n : ℕ) : Except String (List (ℝ × ℝ)) :=
  if spec.orientation == "h" then three_point_arc_points_h spec side n
  else
    (three_point_arc_points_h ⟨spec.court_type, spec.units, spec.origin, "h"⟩
      side n).map (List.map rot_point_r)

/-- `restricted_area_polygon`: unlike the three builders above, the source
builds this polygon directly in the target orientation, reusing the same
angular span (-90 to 90 degrees for the left/down side) around the
already-rotated hoop center, and closes the arc by its first vertex. -/
noncomputable def restricted_area_polygon (spec : CourtSpec) (side : String)
    (n : ℕ) : Except String (List (ℝ × ℝ)) := do
  let p ← spec.params
  let r := paramScalar p "charge_circle_radius"
  let hc ← spec.hoop_centers
  let c := if side == "l" then hc.1 else hc.2
  let a : ℚ × ℚ :=
    if spec.orientation == "h" then
      (if side == "l" then (-90, 90) else (90, -90))
    else
      (if side == "l" || side == "d" then (-90, 90) else (90, -90))
  let thetas := linspace (deg2rad ((a.1 : ℚ) : ℝ)) (deg2rad ((a.2 : ℚ) : ℝ)) n
  let pts := thetas.map (fun t =>
    ((c.1 : ℝ) + (r : ℝ) * Real.cos t, (c.2 : ℝ) + (r : ℝ) * Real.sin t))
  match pts with
  | [] => .error "index 0 is out of bounds"
  | q :: _ => pure (pts ++ [q])

end MplBasketball

deriving instance DecidableEq for Except

namespace MplBasketball

/-! ## Evaluation lemmas for the parameter tables -/

theorem get_nba_ft :
    _get_court_params_in_desired_units "nba" "ft" = .ok nba_court_parameters := by
  simp [_get_court_params_in_desired_units, nba_court_parameters, nameComponents,
    splitOnChar, leagueTokens, unitTokens]

theorem get_wnba_ft :
    _get_court_params_in_desired_units "wnba" "ft" = .ok wnba_court_parameters := by
  simp [_get_court_params_in_desired_units, wnba_court_parameters, nameComponents,
    splitOnChar, leagueTokens, unitTokens]

theorem get_ncaa_ft :
    _get_court_params_in_desired_units "ncaa" "ft" = .ok ncaa_court_parameters := by
  simp [_get_court_params_in_desired_units, ncaa_court_parameters, nameComponents,
    splitOnChar, leagueTokens, unitTokens]

theorem get_fiba_ft :
    _get_court_params_in_desired_units "fiba" "ft" = .ok fiba_court_parameters := by
  simp [_get_court_params_in_desired_units, fiba_court_parameters, nameComponents,
    splitOnChar, leagueTokens, unitTokens]

/-- The base (feet) table selected for a league, as the source selects it. -/
def leagueBaseTable (league : String) : Params :=
  if league == "nba" then nba_court_parameters
  else if league == "wnba" then wnba_court_parameters
  else if league == "ncaa" then ncaa_court_parameters
  else fiba_court_parameters

/-- Stated from the spec text: length values are multiplied by exactly
0.3048, list values element-wise. -/
def spec_length_scale (factor : ℚ) : PVal → PVal
  | .scalar v => .scalar (v * factor)
  | .vals l => .vals (l.map (fun v => v * factor))

/-- Stated from the spec text: a field whose underscore-separated name
contains the component `angle` is returned unchanged; every other field is
scaled by exactly 0.3048. -/
def spec_unit_rule (kv : String × PVal) : String × PVal :=
  if (nameComponents kv.1).contains "angle" then kv
  else (kv.1, spec_length_scale 0.3048 kv.2)

/-- C6: for every league, `get_parameters` in meters is the feet table with
every scalar length field times exactly 0.3048, list fields element-wise,
and angle-named fields unchanged; in feet every field equals the base
table. -/
theorem C6_unit_conversion (league : String) (hl : league ∈ leagueTokens) :
    _get_court_params_in_desired_units league "ft" = .ok (leagueBaseTable league)
    ∧ _get_court_params_in_desired_units league "m" =
        .ok ((leagueBaseTable league).map spec_unit_rule) := by
  fin_cases hl <;>
    refine ⟨?_, ?_⟩ <;>
    simp [_get_court_params_in_desired_units, leagueBaseTable, spec_unit_rule,
      spec_length_scale, nba_court_parameters, wnba_court_parameters,
      ncaa_court_parameters, fiba_court_parameters, nameComponents, splitOnChar,
      leagueTokens, unitTokens]

/-- Witness for C6 at the NBA league. -/
theorem C6_unit_conversion_witness :
    _get_court_params_in_desired_units "nba" "ft" = .ok (leagueBaseTable "nba")
    ∧ _get_court_params_in_desired_units "nba" "m" =
        .ok ((leagueBaseTable "nba").map spec_unit_rule) :=
  C6_unit_conversion "nba" (by decide)

/-- C3: a point is classified inside a zone by the horizontal spec exactly
when the rotated point (x, y becomes -y, x) is classified inside the same
zone by the otherwise-identical vertical spec, for all four masks, every
side token and every point; the two calls are equal even on invalid specs,
where both fail identically. -/
theorem C3_rotation_consistency (league units origin side : String) (x y : ℚ) :
    restricted_area_mask_pt (-y) x ⟨league, units, origin, "v"⟩ side
      = restricted_area_mask_pt x y ⟨league, units, origin, "h"⟩ side
    ∧ paint_mask_pt (-y) x ⟨league, units, origin, "v"⟩ side
      = paint_mask_pt x y ⟨league, units, origin, "h"⟩ side
    ∧ corner_three_mask_pt (-y) x ⟨league, units, origin, "v"⟩ side
      = corner_three_mask_pt x y ⟨league, units, origin, "h"⟩ side
    ∧ above_break_three_mask_pt (-y) x ⟨league, units, origin, "v"⟩ side
      = above_break_three_mask_pt x y ⟨league, units, origin, "h"⟩ side := by
  refine ⟨?_, ?_, ?_, ?_⟩
  · simp [restricted_area_mask_pt]
  · simp [paint_mask_pt]
  · simp [corner_three_mask_pt]
  · simp [above_break_three_mask_pt]

/-- The origin-to-center table as written in the spec (section 4.2). -/
def spec_center_table (origin : String) (w d : ℚ) : ℚ × ℚ :=
  if origin == "center" then (0, 0)
  else if origin == "top-left" then (w / 2, -d / 2)
  else if origin == "bottom-left" then (w / 2, d / 2)
  else if origin == "top-right" then (-w / 2, -d / 2)
  else (-w / 2, d / 2)

/-- C7: `center` equals the spec's origin-convention table entry and
`hoop_centers` equals the horizontal-frame hoop formulas, both rotated by
the map taking x y into (-y, x) when the orientation is vertical. -/
theorem C7_center_hoops (league units origin orientation : String) (p : Params)
    (hp : _get_court_params_in_desired_units league units = .ok p)
    (hO : origin ∈ originTokens) (hT : orientation ∈ ["h", "v"]) :
    let w := (paramPair p "court_dims").1
    let d := (paramPair p "court_dims").2
    let hd := paramScalar p "hoop_distance_from_edge"
    let cH := spec_center_table origin w d
    CourtSpec.center ⟨league, units, origin, orientation⟩ =
      .ok (if orientation == "h" then cH else rot_point cH)
    ∧ CourtSpec.hoop_centers ⟨league, units, origin, orientation⟩ =
      .ok (if orientation == "h" then
            ((cH.1 - w / 2 + hd, cH.2), (cH.1 + w / 2 - hd, cH.2))
          else (rot_point (cH.1 - w / 2 + hd, cH.2),
            rot_point (cH.1 + w / 2 - hd, cH.2))) := by
  fin_cases hO <;> fin_cases hT <;>
    refine ⟨?_, ?_⟩ <;>
    simp [CourtSpec.center, CourtSpec.hoop_centers, CourtSpec.dims, CourtSpec.params,
      hp, _center_from_origin, spec_center_table, rot_point, bind, Except.bind,
      pure, Except.pure]

/-- Witness for C7: NBA court in feet, top-left origin, both orientations
checked at the vertical case. -/
theorem C7_center_hoops_witness :
    let p := nba_court_parameters
    let w := (paramPair p "court_dims").1
    let d := (paramPair p "court_dims").2
    let hd := paramScalar p "hoop_distance_from_edge"
    let cH := spec_center_table "top-left" w d
    CourtSpec.center ⟨"nba", "ft", "top-left", "v"⟩ =
      .ok (if "v" == "h" then cH else rot_point cH)
    ∧ CourtSpec.hoop_centers ⟨"nba", "ft", "top-left", "v"⟩ =
      .ok (if "v" == "h" then
            ((cH.1 - w / 2 + hd, cH.2), (cH.1 + w / 2 - hd, cH.2))
          else (rot_point (cH.1 - w / 2 + hd, cH.2),
            rot_point (cH.1 + w / 2 - hd, cH.2))) :=
  C7_center_hoops "nba" "ft" "top-left" "v" nba_court_parameters get_nba_ft
    (by decide) (by decide)

/-- C9: mask bounds are inclusive.  A point exactly on a paint-rectangle
edge satisfies the inclusive comparisons and is classified inside by
`paint_mask`, and a point exactly at distance `charge_circle_radius` from
the hoop center on the mid-court side is classified inside by
`restricted_area_mask`. -/
theorem C9_boundary_inclusive (league units origin : String) (p : Params)
    (c : ℚ × ℚ)
    (hp : _get_court_params_in_desired_units league units = .ok p)
    (hc : _center_from_origin origin (paramPair p "court_dims") = .ok c)
    (x y : ℚ) :
    let d := paramPair p "court_dims"
    let w := (paramPair p "outer_paint_dims").1
    let h := (paramPair p "outer_paint_dims").2
    let xl0 := c.1 - d.1 / 2
    let xl1 := xl0 + w
    let yl0 := c.2 - h / 2
    let yl1 := c.2 + h / 2
    let r := paramScalar p "charge_circle_radius"
    let lx := c.1 - d.1 / 2 + paramScalar p "hoop_distance_from_edge"
    (((x = xl0 ∨ x = xl1) ∧ xl0 ≤ x ∧ x ≤ xl1 ∧ yl0 ≤ y ∧ y ≤ yl1) ∨
     ((y = yl0 ∨ y = yl1) ∧ xl0 ≤ x ∧ x ≤ xl1 ∧ yl0 ≤ y ∧ y ≤ yl1) →
      paint_mask_pt x y ⟨league, units, origin, "h"⟩ "l" = .ok true)
    ∧ ((x - lx) ^ 2 + (y - c.2) ^ 2 = r * r ∧ lx ≤ x →
      restricted_area_mask_pt x y ⟨league, units, origin, "h"⟩ "l" = .ok true) := by
  intro d w h xl0 xl1 yl0 yl1 r lx
  have hh : CourtSpec.hoop_centers ⟨league, units, origin, "h"⟩ =
      .ok ((lx, c.2), (c.1 + d.1 / 2 - paramScalar p "hoop_distance_from_edge", c.2)) := by
    simp [CourtSpec.hoop_centers, CourtSpec.params, hp, hc, bind, Except.bind,
      pure, Except.pure]
  constructor
  · rintro (⟨_, hb⟩ | ⟨_, hb⟩) <;>
      simp_all [paint_mask_pt, paint_mask_core, CourtSpec.params, hp, hc,
        bind, Except.bind, pure, Except.pure, decide_eq_true_eq]
  · rintro ⟨heq, hge⟩
    simp [restricted_area_mask_pt, restricted_area_mask_core, CourtSpec.params,
      hp, hc, hh, bind, Except.bind, pure, Except.pure, decide_eq_true_eq]
    exact ⟨le_of_eq heq, hge⟩

/-- Witness for C9: NBA feet, center origin; the paint point sits on the
left edge of the left paint rectangle, and the restricted-area point sits
exactly 4 feet in front of the left hoop. -/
theorem C9_boundary_inclusive_witness :
    paint_mask_pt (-47) 0 ⟨"nba", "ft", "center", "h"⟩ "l" = .ok true
    ∧ restricted_area_mask_pt (-37.75) 0 ⟨"nba", "ft", "center", "h"⟩ "l" =
        .ok true := by
  refine ⟨(C9_boundary_inclusive "nba" "ft" "center" nba_court_parameters (0, 0)
      get_nba_ft rfl (-47) 0).1 ?_,
    (C9_boundary_inclusive "nba" "ft" "center" nba_court_parameters (0, 0)
      get_nba_ft rfl (-37.75) 0).2 ?_⟩
  · simp [paramPair, paramScalar, paramGet, pvalList, pvalScalar,
      nba_court_parameters, List.find?]
    norm_num
  · simp [paramPair, paramScalar, paramGet, pvalList, pvalScalar,
      nba_court_parameters, List.find?]
    norm_num

/-- C10: `above_break_three_mask` imposes no x bound.  In the horizontal
frame with side l it is true exactly when the point lies in the central
y-band and at squared distance at least the arc radius squared from the
left hoop, regardless of x, including points past half-court or outside
the court. -/
theorem C10_above_break_no_x_bound (league units origin : String) (p : Params)
    (c : ℚ × ℚ)
    (hp : _get_court_params_in_desired_units league units = .ok p)
    (hc : _center_from_origin origin (paramPair p "court_dims") = .ok c)
    (x y : ℚ) :
    let d := paramPair p "court_dims"
    let lx := c.1 - d.1 / 2 + paramScalar p "hoop_distance_from_edge"
    let arc_r := paramScalar p "three_point_arc_diameter" / 2
    let side_w := paramScalar p "three_point_side_width"
    (above_break_three_mask_pt x y ⟨league, units, origin, "h"⟩ "l" = .ok true ↔
      (|y - c.2| ≤ d.2 / 2 - side_w ∧
        (x - lx) ^ 2 + (y - c.2) ^ 2 ≥ arc_r * arc_r)) := by
  intro d lx arc_r side_w
  have hh : CourtSpec.hoop_centers ⟨league, units, origin, "h"⟩ =
      .ok ((lx, c.2), (c.1 + d.1 / 2 - paramScalar p "hoop_distance_from_edge", c.2)) := by
    simp [CourtSpec.hoop_centers, CourtSpec.params, hp, hc, bind, Except.bind,
      pure, Except.pure]
  simp [above_break_three_mask_pt, above_break_three_mask_core, CourtSpec.params,
    hp, hc, hh, bind, Except.bind, pure, Except.pure, Bool.and_eq_true,
    decide_eq_true_eq, ge_iff_le]

/-- Witness for C10: a point 1000 feet past the right end of the NBA court
(x = 1000) on the center line is still flagged as above-break three for the
left side. -/
theorem C10_above_break_no_x_bound_witness :
    above_break_three_mask_pt 1000 0 ⟨"nba", "ft", "center", "h"⟩ "l" =
      .ok true := by
  refine (C10_above_break_no_x_bound "nba" "ft" "center" nba_court_parameters
    (0, 0) get_nba_ft rfl 1000 0).mpr ?_
  simp [paramPair, paramScalar, paramGet, pvalList, pvalScalar,
    nba_court_parameters, List.find?]
  norm_num

/-! ## Behavior of `transform` on valid tokens -/

/-- On validated tokens, `transform` succeeds and equals the pure branch
body applied to the league's court dimensions in feet. -/
theorem transform_valid (x y : List ℚ) (fr toTok origin league : String)
    (hf : fr ∈ frTokens) (ht : toTok ∈ frTokens) (ho : origin ∈ originTokens)
    (hl : league ∈ leagueTokens) :
    ∃ p, _get_court_params_in_desired_units league "ft" = .ok p ∧
      transform x y fr toTok origin league =
        .ok (transformCore x y fr toTok
          (originsTable origin (paramPair p "court_dims"))) := by
  have step : ∀ p, _get_court_params_in_desired_units league "ft" = .ok p →
      transform x y fr toTok origin league =
        .ok (transformCore x y fr toTok
          (originsTable origin (paramPair p "court_dims"))) := by
    intro p hp
    rw [transform, if_neg (by simpa using hf), if_neg (by simpa using ht),
      if_neg (by simpa using ho), if_neg (by simpa using hl), hp]
  fin_cases hl
  · exact ⟨_, get_nba_ft, step _ get_nba_ft⟩
  · exact ⟨_, get_wnba_ft, step _ get_wnba_ft⟩
  · exact ⟨_, get_ncaa_ft, step _ get_ncaa_ft⟩
  · exact ⟨_, get_fiba_ft, step _ get_fiba_ft⟩

/-- The pairs of orientation tokens for which the source's branch body
assigns into the caller's arrays through a boolean mask (the same-family
folds onto a half court). -/
def mutatingPairs : List (String × String) :=
  [("h", "hr"), ("hl", "hr"), ("h", "hl"), ("hr", "hl"),
   ("v", "vu"), ("v", "vd"), ("vu", "vd")]

/-- Outside the mutating pairs, the branch body leaves the caller's two
buffers untouched. -/
theorem transformCore_buffers (x y : List ℚ) (fr toTok : String) (c : ℚ × ℚ)
    (hf : fr ∈ frTokens) (ht : toTok ∈ frTokens)
    (hm : (fr, toTok) ∉ mutatingPairs) :
    (transformCore x y fr toTok c).bufx = x
    ∧ (transformCore x y fr toTok c).bufy = y := by
  fin_cases hf <;> fin_cases ht <;>
    first
      | exact absurd (by decide) hm
      | exact ⟨rfl, rfl⟩

/-- Hoop centers of the NBA feet center-origin horizontal spec. -/
theorem hoops_nba_center_h :
    CourtSpec.hoop_centers ⟨"nba", "ft", "center", "h"⟩ =
      .ok ((-41.75, 0), (41.75, 0)) := by
  rw [CourtSpec.hoop_centers]
  simp [CourtSpec.params, get_nba_ft, _center_from_origin, bind, Except.bind,
    pure, Except.pure, paramPair, paramScalar, paramGet, pvalList, pvalScalar,
    nba_court_parameters, List.find?]
  norm_num

/-- A mask call that returns `.ok` hands back the caller's buffers
unchanged. -/
theorem maskState_buffers (e : Except String (List Bool)) (x y : List ℚ)
    (out : List Bool × List ℚ × List ℚ)
    (h : (do let m ← e; pure (m, x, y) : Except String _) = .ok out) :
    out.2.1 = x ∧ out.2.2 = y := by
  cases e with
  | error s => simp [bind, Except.bind] at h
  | ok m =>
    simp [bind, Except.bind, pure, Except.pure] at h
    subst h
    exact ⟨rfl, rfl⟩

/-- C1 amended: the four mask functions never change the caller's input
buffers, and `transform` leaves them unchanged for every token pair outside
the same-family fold pairs; on those seven fold pairs the source assigns
into the caller's arrays (see the counterexample). -/
theorem C1_no_mutation_amended :
    (∀ (x y : List ℚ) (fr toTok origin league : String),
      fr ∈ frTokens → toTok ∈ frTokens → origin ∈ originTokens →
      league ∈ leagueTokens → (fr, toTok) ∉ mutatingPairs →
      ∃ r, transform x y fr toTok origin league = .ok r ∧
        r.bufx = x ∧ r.bufy = y)
    ∧ (∀ (x y : List ℚ) (spec : CourtSpec) (side : String)
        (out : List Bool × List ℚ × List ℚ),
        restricted_area_mask x y spec side = .ok out → out.2.1 = x ∧ out.2.2 = y)
    ∧ (∀ (x y : List ℚ) (spec : CourtSpec) (side : String)
        (out : List Bool × List ℚ × List ℚ),
        paint_mask x y spec side = .ok out → out.2.1 = x ∧ out.2.2 = y)
    ∧ (∀ (x y : List ℚ) (spec : CourtSpec) (side : String)
        (out : List Bool × List ℚ × List ℚ),
        corner_three_mask x y spec side = .ok out → out.2.1 = x ∧ out.2.2 = y)
    ∧ (∀ (x y : List ℚ) (spec : CourtSpec) (side : String)
        (out : List Bool × List ℚ × List ℚ),
        above_break_three_mask x y spec side = .ok out →
          out.2.1 = x ∧ out.2.2 = y) := by
  refine ⟨?_, ?_, ?_, ?_, ?_⟩
  · intro x y fr toTok origin league hf ht ho hl hm
    obtain ⟨p, hp, htr⟩ := transform_valid x y fr toTok origin league hf ht ho hl
    exact ⟨_, htr,
      (transformCore_buffers x y fr toTok _ hf ht hm).1,
      (transformCore_buffers x y fr toTok _ hf ht hm).2⟩
  · intro x y spec side out h
    exact maskState_buffers _ x y out h
  · intro x y spec side out h
    exact maskState_buffers _ x y out h
  · intro x y spec side out h
    exact maskState_buffers _ x y out h
  · intro x y spec side out h
    exact maskState_buffers _ x y out h

/-- Counterexample to C1 as stated: calling `transform` from h to hr with
origin center mutates the caller's buffers; the input x buffer [-10]
becomes [10] and the y buffer [5] becomes [-5]. -/
theorem C1_counterexample :
    transform [(-10 : ℚ)] [5] "h" "hr" "center" "nba" =
      .ok ⟨[10], [-5], [10], [-5]⟩ ∧ [(10 : ℚ)] ≠ [(-10 : ℚ)] := by
  constructor
  · obtain ⟨p, hp, htr⟩ := transform_valid [(-10 : ℚ)] [5] "h" "hr" "center" "nba"
      (by decide) (by decide) (by decide) (by decide)
    rw [get_nba_ft] at hp
    cases hp
    rw [htr]
    simp [transformCore, frontChar, originsTable, paramPair, paramGet, pvalList,
      nba_court_parameters, List.find?]
  · intro h
    norm_num at h

/-- Witness for the amended C1: an h-to-v transform call and a
restricted-area mask call, both leaving their buffers unchanged. -/
theorem C1_no_mutation_amended_witness :
    (∃ r, transform [(1 : ℚ), 2] [3, 4] "h" "v" "center" "nba" = .ok r ∧
      r.bufx = [1, 2] ∧ r.bufy = [3, 4])
    ∧ (([false], [(0 : ℚ)], [(0 : ℚ)]).2.1 = [(0 : ℚ)]
        ∧ ([false], [(0 : ℚ)], [(0 : ℚ)]).2.2 = [(0 : ℚ)]) := by
  refine ⟨C1_no_mutation_amended.1 [1, 2] [3, 4] "h" "v" "center" "nba"
      (by decide) (by decide) (by decide) (by decide) (by decide),
    C1_no_mutation_amended.2.1 [0] [0] ⟨"nba", "ft", "center", "h"⟩ "l"
      ([false], [0], [0]) ?_⟩
  rw [restricted_area_mask]
  simp [restricted_area_mask_pt, restricted_area_mask_core, CourtSpec.params,
    get_nba_ft, hoops_nba_center_h, bind, Except.bind, pure, Except.pure,
    paramScalar, paramGet, pvalScalar, nba_court_parameters, List.find?,
    List.mapM.loop]
  norm_num

/-- Zipping the two projections of a pair list reassembles the list. -/
theorem zip_proj_self (l : List (ℚ × ℚ)) :
    (l.map Prod.fst).zip (l.map Prod.snd) = l := by
  induction l with
  | nil => rfl
  | cons a t ih => simp [ih]

/-- The h-to-v branch body followed by the v-to-h branch body returns the
original coordinate lists. -/
theorem transformCore_roundtrip_hv (x y : List ℚ) (h : x.length = y.length)
    (c c2 : ℚ × ℚ) :
    (transformCore (transformCore x y "h" "v" c).retx
      (transformCore x y "h" "v" c).rety "v" "h" c2).retx = x
    ∧ (transformCore (transformCore x y "h" "v" c).retx
      (transformCore x y "h" "v" c).rety "v" "h" c2).rety = y := by
  have hrot : ∀ l : List (ℚ × ℚ),
      (l.map (fun p : ℚ × ℚ => (-p.2, p.1))).map (fun p : ℚ × ℚ => (p.2, -p.1)) = l := by
    intro l
    rw [List.map_map]
    have : ∀ p : ℚ × ℚ, ((fun p : ℚ × ℚ => (p.2, -p.1)) ∘ fun p : ℚ × ℚ => (-p.2, p.1)) p = p := by
      intro p
      simp
    rw [List.map_congr_left (fun a _ => this a)]
    exact List.map_id' l
  constructor
  · show (((((x.zip y).map fun p => (-p.2, p.1)).map Prod.fst).zip
        (((x.zip y).map fun p => (-p.2, p.1)).map Prod.snd)).map
          (fun p : ℚ × ℚ => (p.2, -p.1))).map Prod.fst = x
    rw [zip_proj_self, hrot]
    exact List.map_fst_zip x y (le_of_eq h)
  · show (((((x.zip y).map fun p => (-p.2, p.1)).map Prod.fst).zip
        (((x.zip y).map fun p => (-p.2, p.1)).map Prod.snd)).map
          (fun p : ℚ × ℚ => (p.2, -p.1))).map Prod.snd = y
    rw [zip_proj_self, hrot]
    exact List.map_snd_zip x y (le_of_eq h.symm)

/-- The v-to-h branch body followed by the h-to-v branch body returns the
original coordinate lists. -/
theorem transformCore_roundtrip_vh (x y : List ℚ) (h : x.length = y.length)
    (c c2 : ℚ × ℚ) :
    (transformCore (transformCore x y "v" "h" c).retx
      (transformCore x y "v" "h" c).rety "h" "v" c2).retx = x
    ∧ (transformCore (transformCore x y "v" "h" c).retx
      (transformCore x y "v" "h" c).rety "h" "v" c2).rety = y := by
  have hrot : ∀ l : List (ℚ × ℚ),
      (l.map (fun p : ℚ × ℚ => (p.2, -p.1))).map (fun p : ℚ × ℚ => (-p.2, p.1)) = l := by
    intro l
    rw [List.map_map]
    have : ∀ p : ℚ × ℚ, ((fun p : ℚ × ℚ => (-p.2, p.1)) ∘ fun p : ℚ × ℚ => (p.2, -p.1)) p = p := by
      intro p
      simp
    rw [List.map_congr_left (fun a _ => this a)]
    exact List.map_id' l
  constructor
  · show (((((x.zip y).map fun p => (p.2, -p.1)).map Prod.fst).zip
        (((x.zip y).map fun p => (p.2, -p.1)).map Prod.snd)).map
          (fun p : ℚ × ℚ => (-p.2, p.1))).map Prod.fst = x
    rw [zip_proj_self, hrot]
    exact List.map_fst_zip x y (le_of_eq h)
  · show (((((x.zip y).map fun p => (p.2, -p.1)).map Prod.fst).zip
        (((x.zip y).map fun p => (p.2, -p.1)).map Prod.snd)).map
          (fun p : ℚ × ℚ => (-p.2, p.1))).map Prod.snd = y
    rw [zip_proj_self, hrot]
    exact List.map_snd_zip x y (le_of_eq h.symm)

/-- C2 amended: the transform round-trip returns the original coordinates
whenever both tokens are full-court orientations (h or v), for every
origin, league and equal-length arrays.  For pairs involving a half-court
token the fold is not injective and the round-trip fails (see the
counterexample). -/
theorem C2_roundtrip_amended (A B origin league : String)
    (hA : A ∈ ["h", "v"]) (hB : B ∈ ["h", "v"])
    (ho : origin ∈ originTokens) (hl : league ∈ leagueTokens)
    (x y : List ℚ) (hlen : x.length = y.length) :
    ∃ r s, transform x y A B origin league = .ok r ∧
      transform r.retx r.rety B A origin league = .ok s ∧
      s.retx = x ∧ s.rety = y := by
  fin_cases hA <;> fin_cases hB
  · obtain ⟨p, hp, h1⟩ := transform_valid x y "h" "h" origin league
      (by decide) (by decide) ho hl
    obtain ⟨p2, hp2, h2⟩ := transform_valid _ _ "h" "h" origin league
      (by decide) (by decide) ho hl
    exact ⟨_, _, h1, h2, rfl, rfl⟩
  · obtain ⟨p, hp, h1⟩ := transform_valid x y "h" "v" origin league
      (by decide) (by decide) ho hl
    obtain ⟨p2, hp2, h2⟩ := transform_valid _ _ "v" "h" origin league
      (by decide) (by decide) ho hl
    exact ⟨_, _, h1, h2, (transformCore_roundtrip_hv x y hlen _ _).1,
      (transformCore_roundtrip_hv x y hlen _ _).2⟩
  · obtain ⟨p, hp, h1⟩ := transform_valid x y "v" "h" origin league
      (by decide) (by decide) ho hl
    obtain ⟨p2, hp2, h2⟩ := transform_valid _ _ "h" "v" origin league
      (by decide) (by decide) ho hl
    exact ⟨_, _, h1, h2, (transformCore_roundtrip_vh x y hlen _ _).1,
      (transformCore_roundtrip_vh x y hlen _ _).2⟩
  · obtain ⟨p, hp, h1⟩ := transform_valid x y "v" "v" origin league
      (by decide) (by decide) ho hl
    obtain ⟨p2, hp2, h2⟩ := transform_valid _ _ "v" "v" origin league
      (by decide) (by decide) ho hl
    exact ⟨_, _, h1, h2, rfl, rfl⟩

/-- Witness for the amended C2 at the concrete arrays of the spec. -/
theorem C2_roundtrip_amended_witness :
    ∃ r s, transform [(10 : ℚ), 20, 30] [5, 15, 25] "h" "v" "center" "nba" = .ok r ∧
      transform r.retx r.rety "v" "h" "center" "nba" = .ok s ∧
      s.retx = [(10 : ℚ), 20, 30] ∧ s.rety = [(5 : ℚ), 15, 25] :=
  C2_roundtrip_amended "h" "v" "center" "nba" (by decide) (by decide)
    (by decide) (by decide) [10, 20, 30] [5, 15, 25] (by decide)

/-- Counterexample to C2 as stated: with A = h and B = hr the round trip
folds the left-half point (-10, 5) to (10, -5) and the way back is the
identity, so the original coordinates are not returned. -/
theorem C2_counterexample :
    transform [(-10 : ℚ)] [5] "h" "hr" "center" "nba" =
      .ok ⟨[10], [-5], [10], [-5]⟩
    ∧ transform [(10 : ℚ)] [-5] "hr" "h" "center" "nba" =
      .ok ⟨[10], [-5], [10], [-5]⟩
    ∧ ¬([(10 : ℚ)] = [(-10 : ℚ)] ∧ [(-5 : ℚ)] = [(5 : ℚ)]) := by
  refine ⟨?_, ?_, ?_⟩
  · obtain ⟨p, hp, htr⟩ := transform_valid [(-10 : ℚ)] [5] "h" "hr" "center" "nba"
      (by decide) (by decide) (by decide) (by decide)
    rw [get_nba_ft] at hp
    cases hp
    rw [htr]
    simp [transformCore, frontChar, originsTable, paramPair, paramGet, pvalList,
      nba_court_parameters, List.find?]
  · obtain ⟨p, hp, htr⟩ := transform_valid [(10 : ℚ)] [-5] "hr" "h" "center" "nba"
      (by decide) (by decide) (by decide) (by decide)
    rw [get_nba_ft] at hp
    cases hp
    rw [htr]
    rfl
  · rintro ⟨h1, h2⟩
    norm_num at h1

/-- C5 amended: `transform` fails fast on each invalid token before any
computation (in source order fr, to, origin, court_type), and
`get_parameters` fails on an unknown league; but `CourtSpec` construction
never validates (it stores the four fields as given), and no length check
exists: a mismatched-length call with fr equal to to returns the arrays
untouched instead of failing. -/
theorem C5_validation_amended :
    (∀ (x y : List ℚ) (fr toTok origin league : String), fr ∉ frTokens →
      transform x y fr toTok origin league =
        .error ("Invalid value for fr: " ++ fr))
    ∧ (∀ (x y : List ℚ) (fr toTok origin league : String),
      fr ∈ frTokens → toTok ∉ frTokens →
      transform x y fr toTok origin league =
        .error ("Invalid value for to: " ++ toTok))
    ∧ (∀ (x y : List ℚ) (fr toTok origin league : String),
      fr ∈ frTokens → toTok ∈ frTokens → origin ∉ originTokens →
      transform x y fr toTok origin league =
        .error ("Invalid value for origin: " ++ origin))
    ∧ (∀ (x y : List ℚ) (fr toTok origin league : String),
      fr ∈ frTokens → toTok ∈ frTokens → origin ∈ originTokens →
      league ∉ leagueTokens →
      transform x y fr toTok origin league =
        .error ("Invalid value for court_type: " ++ league))
    ∧ (∀ league units : String, league ∉ leagueTokens →
      _get_court_params_in_desired_units league units = .error "Invalid court type")
    ∧ (∀ (x y : List ℚ) (origin league : String),
      origin ∈ originTokens → league ∈ leagueTokens →
      transform x y "h" "h" origin league = .ok ⟨x, y, x, y⟩)
    ∧ (∀ a b c d : String, (CourtSpec.mk a b c d).court_type = a
        ∧ (CourtSpec.mk a b c d).units = b ∧ (CourtSpec.mk a b c d).origin = c
        ∧ (CourtSpec.mk a b c d).orientation = d) := by
  refine ⟨?_, ?_, ?_, ?_, ?_, ?_, ?_⟩
  · intro x y fr toTok origin league h
    rw [transform, if_pos h]
  · intro x y fr toTok origin league hf h
    rw [transform, if_neg (not_not_intro hf), if_pos h]
  · intro x y fr toTok origin league hf ht h
    rw [transform, if_neg (not_not_intro hf), if_neg (not_not_intro ht), if_pos h]
  · intro x y fr toTok origin league hf ht ho h
    rw [transform, if_neg (not_not_intro hf), if_neg (not_not_intro ht),
      if_neg (not_not_intro ho), if_pos h]
  · intro league units h
    rw [_get_court_params_in_desired_units, if_pos h]
  · intro x y origin league ho hl
    obtain ⟨p, hp, htr⟩ := transform_valid x y "h" "h" origin league
      (by decide) (by decide) ho hl
    rw [htr]
    rfl
  · intro a b c d
    exact ⟨rfl, rfl, rfl, rfl⟩

/-- Counterexample to C5 as stated: a transform call with unequal-length
arrays (2 and 1) succeeds with no error, and constructing a CourtSpec with
the unknown league xyz succeeds; the error appears only when the params
accessor is used later. -/
theorem C5_counterexample :
    transform [(1 : ℚ), 2] [3] "h" "h" "center" "nba" =
      .ok ⟨[1, 2], [3], [1, 2], [3]⟩
    ∧ (CourtSpec.mk "xyz" "ft" "top-left" "h").params =
      .error "Invalid court type" := by
  constructor
  · obtain ⟨p, hp, htr⟩ := transform_valid [(1 : ℚ), 2] [3] "h" "h" "center" "nba"
      (by decide) (by decide) (by decide) (by decide)
    rw [htr]
    rfl
  · rfl

/-- Witness for the amended C5: a bogus fr token, an unknown league, and a
no-op transform call. -/
theorem C5_validation_amended_witness :
    transform [] [] "bogus" "h" "center" "nba" =
      .error ("Invalid value for fr: " ++ "bogus")
    ∧ _get_court_params_in_desired_units "xyz" "ft" =
      .error "Invalid court type"
    ∧ transform [(7 : ℚ)] [8] "h" "h" "center" "nba" =
      .ok ⟨[7], [8], [7], [8]⟩ :=
  ⟨C5_validation_amended.1 [] [] "bogus" "h" "center" "nba" (by decide),
   C5_validation_amended.2.2.2.2.1 "xyz" "ft" (by decide),
   C5_validation_amended.2.2.2.2.2.1 [7] [8] "center" "nba" (by decide) (by decide)⟩

/-- On one horizontal-frame point, the corner-three and above-break masks
can only both hold when the point lies exactly on a corner-band boundary
line. -/

theorem corner_above_core_disjoint (spec_h : CourtSpec) (xh yh : ℚ)
    (side1 side2 : String) (p : Params) (c : ℚ × ℚ)
    (hp : _get_court_params_in_desired_units spec_h.court_type spec_h.units = .ok p)
    (hc : _center_from_origin spec_h.origin (paramPair p "court_dims") = .ok c)
    (hband : |yh - c.2| ≠
      (paramPair p "court_dims").2 / 2 - paramScalar p "three_point_side_width") :
    ¬(corner_three_mask_core spec_h xh yh side1 = .ok true
      ∧ above_break_three_mask_core spec_h xh yh side2 = .ok true) := by
  rintro ⟨h1, h2⟩
  set d2 := (paramPair p "court_dims").2 with hd2
  set sw := paramScalar p "three_point_side_width" with hsw
  simp only [corner_three_mask_core, CourtSpec.params, hp, bind, Except.bind, hc,
    pure, Except.pure, Except.ok.injEq] at h1
  cases hhc : CourtSpec.hoop_centers spec_h with
  | error e =>
    simp only [above_break_three_mask_core, CourtSpec.params, hp, bind,
      Except.bind, hc, hhc, pure, Except.pure] at h2
    exact Except.noConfusion h2
  | ok hcv =>
    simp only [above_break_three_mask_core, CourtSpec.params, hp, bind,
      Except.bind, hc, hhc, pure, Except.pure, Except.ok.injEq] at h2
    have hcentral : |yh - c.2| ≤ d2 / 2 - sw := by
      split at h2
      · simp only [Bool.and_eq_true, decide_eq_true_eq] at h2
        exact h2.1
      · split at h2
        · simp only [Bool.and_eq_true, decide_eq_true_eq] at h2
          exact h2.1
        · simp only [Bool.or_eq_true, Bool.and_eq_true, decide_eq_true_eq] at h2
          rcases h2 with ⟨hc2, _⟩ | ⟨hc2, _⟩ <;> exact hc2
    have hbd : (c.2 + d2 / 2 - sw ≤ yh ∧ yh ≤ c.2 + d2 / 2)
        ∨ (c.2 - d2 / 2 ≤ yh ∧ yh ≤ c.2 - d2 / 2 + sw) := by
      split at h1
      · simp only [Bool.and_eq_true, Bool.or_eq_true, decide_eq_true_eq] at h1
        exact h1.2
      · split at h1
        · simp only [Bool.and_eq_true, Bool.or_eq_true, decide_eq_true_eq] at h1
          exact h1.2
        · simp only [Bool.or_eq_true, Bool.and_eq_true, decide_eq_true_eq] at h1
          rcases h1 with ⟨_, hb⟩ | ⟨_, hb⟩ <;> exact hb
    apply hband
    refine le_antisymm hcentral ?_
    rcases hbd with ⟨hb1, _⟩ | ⟨_, hb2⟩
    · calc d2 / 2 - sw ≤ yh - c.2 := by linarith
        _ ≤ |yh - c.2| := le_abs_self _
    · have hle : d2 / 2 - sw ≤ -(yh - c.2) := by linarith
      exact hle.trans (neg_le_abs _)


/-- C8 amended: for every point whose horizontal-frame y-distance from the
center differs from depth over two minus `three_point_side_width`, the
corner-three and above-break-three masks are never both true, for any side
arguments; exactly on that boundary line the two zones overlap (see the
counterexample). -/
theorem C8_disjoint_amended (league units origin orientation side1 side2 : String)
    (p : Params) (c : ℚ × ℚ)
    (hp : _get_court_params_in_desired_units league units = .ok p)
    (hc : _center_from_origin origin (paramPair p "court_dims") = .ok c)
    (x y : ℚ)
    (hband : |(if (orientation == "v") = true then -x else y) - c.2| ≠
      (paramPair p "court_dims").2 / 2 - paramScalar p "three_point_side_width") :
    ¬(corner_three_mask_pt x y ⟨league, units, origin, orientation⟩ side1 = .ok true
      ∧ above_break_three_mask_pt x y ⟨league, units, origin, orientation⟩ side2
        = .ok true) := by
  rintro ⟨h1, h2⟩
  by_cases ho : (orientation == "v") = true
  · simp only [corner_three_mask_pt, ho, if_true] at h1
    simp only [above_break_three_mask_pt, ho, if_true] at h2
    rw [if_pos ho] at hband
    exact corner_above_core_disjoint ⟨league, units, origin, "h"⟩ y (-x)
      side1 side2 p c hp hc hband ⟨h1, h2⟩
  · simp only [corner_three_mask_pt, ho, if_false] at h1
    simp only [above_break_three_mask_pt, ho, if_false] at h2
    rw [if_neg ho] at hband
    exact corner_above_core_disjoint ⟨league, units, origin, orientation⟩ x y
      side1 side2 p c hp hc hband ⟨h1, h2⟩

/-- Counterexample to C8 as stated: on the NBA court the point (-47, 22)
lies on the top corner-band boundary at the left baseline, where with side
both the corner-three mask (left corner) and the above-break-three mask
(right hoop distance) are both true. -/
theorem C8_counterexample :
    corner_three_mask_pt (-47) 22 ⟨"nba", "ft", "center", "h"⟩ "both" = .ok true
    ∧ above_break_three_mask_pt (-47) 22 ⟨"nba", "ft", "center", "h"⟩ "both"
      = .ok true := by
  constructor
  · rw [corner_three_mask_pt]
    simp [corner_three_mask_core, CourtSpec.params, get_nba_ft,
      _center_from_origin, bind, Except.bind, pure, Except.pure, paramPair,
      paramScalar, paramGet, pvalList, pvalScalar, nba_court_parameters,
      List.find?]
    norm_num
  · rw [above_break_three_mask_pt]
    simp [above_break_three_mask_core, CourtSpec.params, get_nba_ft,
      hoops_nba_center_h, _center_from_origin, bind, Except.bind, pure,
      Except.pure, paramPair, paramScalar, paramGet, pvalList, pvalScalar,
      nba_court_parameters, List.find?]
    norm_num

/-- Witness for the amended C8 at the court center point. -/
theorem C8_disjoint_amended_witness :
    ¬(corner_three_mask_pt 0 0 ⟨"nba", "ft", "center", "h"⟩ "l" = .ok true
      ∧ above_break_three_mask_pt 0 0 ⟨"nba", "ft", "center", "h"⟩ "l"
        = .ok true) := by
  refine C8_disjoint_amended "nba" "ft" "center" "h" "l" "l"
    nba_court_parameters (0, 0) get_nba_ft rfl 0 0 ?_
  simp [paramPair, paramScalar, paramGet, pvalList, pvalScalar,
    nba_court_parameters, List.find?]
  norm_num

/-- Hoop centers of the NBA feet center-origin vertical spec (rotated). -/
theorem hoops_nba_center_v :
    CourtSpec.hoop_centers ⟨"nba", "ft", "center", "v"⟩ =
      .ok ((0, -41.75), (0, 41.75)) := by
  rw [CourtSpec.hoop_centers]
  simp [CourtSpec.params, get_nba_ft, _center_from_origin, bind, Except.bind,
    pure, Except.pure, paramPair, paramScalar, paramGet, pvalList, pvalScalar,
    nba_court_parameters, List.find?]
  norm_num

/-- Two-point linspace between minus and plus ninety degrees in radians. -/
theorem linspace_two :
    linspace (-(Real.pi / 2)) (Real.pi / 2) 2 = [-(Real.pi / 2), Real.pi / 2] := by
  rw [linspace, show List.range 2 = [0, 1] from rfl]
  simp
  ring

/-- The vertical restricted-area polygon at two samples: centered at the
rotated hoop (0, -41.75) but still spanning minus ninety to ninety degrees,
so its two arc samples sit directly below and above the hoop center. -/
theorem restricted_area_polygon_nba_v :
    restricted_area_polygon ⟨"nba", "ft", "center", "v"⟩ "l" 2 =
      .ok [((0 : ℝ), -45.75), (0, -37.75), (0, -45.75)] := by
  have e0 : deg2rad (-90 : ℝ) = -(Real.pi / 2) := by
    rw [deg2rad]; ring
  have e1 : deg2rad (90 : ℝ) = Real.pi / 2 := by
    rw [deg2rad]; ring
  rw [restricted_area_polygon]
  simp only [CourtSpec.params, get_nba_ft, hoops_nba_center_v, bind, Except.bind,
    pure, Except.pure]
  simp [paramScalar, paramGet, pvalScalar, nba_court_parameters, List.find?,
    e0, e1, linspace_two, Real.cos_neg, Real.cos_pi_div_two, Real.sin_neg,
    Real.sin_pi_div_two]
  norm_num

/-- The horizontal restricted-area polygon at two samples: the chord of
the semicircle in front of the left hoop. -/
theorem restricted_area_polygon_nba_h :
    restricted_area_polygon ⟨"nba", "ft", "center", "h"⟩ "l" 2 =
      .ok [((-41.75 : ℝ), -4), (-41.75, 4), (-41.75, -4)] := by
  have e0 : deg2rad (-90 : ℝ) = -(Real.pi / 2) := by
    rw [deg2rad]; ring
  have e1 : deg2rad (90 : ℝ) = Real.pi / 2 := by
    rw [deg2rad]; ring
  rw [restricted_area_polygon]
  simp only [CourtSpec.params, get_nba_ft, hoops_nba_center_h, bind, Except.bind,
    pure, Except.pure]
  simp [paramScalar, paramGet, pvalScalar, nba_court_parameters, List.find?,
    e0, e1, linspace_two, Real.cos_neg, Real.cos_pi_div_two, Real.sin_neg,
    Real.sin_pi_div_two]

/-- C4 amended: `paint_polygon`, `corner_three_rects` and
`three_point_arc_points` build the vertical output exactly as the rotated
horizontal output, for every league, units, origin, side and sample count;
`restricted_area_polygon` does not (see the counterexample), because it
builds directly in the target orientation with the unrotated angular
span. -/
theorem C4_rotation_builders_amended (league units origin side : String)
    (n : ℕ) :
    paint_polygon ⟨league, units, origin, "v"⟩ side
      = (paint_polygon ⟨league, units, origin, "h"⟩ side).map (List.map rot_point)
    ∧ corner_three_rects ⟨league, units, origin, "v"⟩ side
      = (corner_three_rects ⟨league, units, origin, "h"⟩ side).map
          (List.map (List.map rot_point))
    ∧ three_point_arc_points ⟨league, units, origin, "v"⟩ side n
      = (three_point_arc_points ⟨league, units, origin, "h"⟩ side n).map
          (List.map rot_point_r) :=
  ⟨rfl, rfl, rfl⟩

/-- Counterexample to C4 as stated: for the NBA feet center-origin spec on
the left side with two arc samples, the vertical restricted-area polygon
differs from the rotation of the horizontal one: the vertical build keeps
the minus-ninety-to-ninety span around the rotated hoop (first vertex
(0, -45.75)) while the rotated horizontal polygon starts at (4, -41.75). -/
theorem C4_counterexample :
    restricted_area_polygon ⟨"nba", "ft", "center", "v"⟩ "l" 2 ≠
      (restricted_area_polygon ⟨"nba", "ft", "center", "h"⟩ "l" 2).map
        (List.map rot_point_r) := by
  rw [restricted_area_polygon_nba_v, restricted_area_polygon_nba_h]
  intro h
  simp [rot_point_r, Except.map, List.map] at h

end MplBasketball
